import Mathlib

/-!
Shallow embedding of the ArchiShield multi-domain audit engine
(src/UNI/archishield-react/src): the six rule evaluators
(Zoning, Heritage, Subsurface, Climate 2036, Seismic, WindLoad),
the geospatial helpers they use, and the aggregator
`executeAllAudits` from src/hooks/useSpotAudit.js.

Modelling conventions:
* JavaScript numbers are modelled as `ℚ` wherever the source only does
  field arithmetic and comparisons; `Math.round` is `jsRound`
  (round half toward positive infinity, as in JS).
* The great-circle distance `SpatialUtils.getDistance` (haversine, with
  `Math.sin`/`Math.cos`/`Math.atan2`) is transcendental, so evaluators
  that call it are parametrised over the distance function
  `d : ℚ → ℚ → ℚ → ℚ → K` for an arbitrary linear ordered field `K`
  with a floor (instantiable both at `K := ℚ` for executable witnesses
  and at `K := ℝ` with the real haversine `getDistanceR`).
* Evaluator diagnostic fields that no rule reads back (icons, colors,
  recommendations, the free-form data bags, numeric interpolations
  inside message strings) are omitted; everything that feeds scores,
  pass flags, constraints, mandates, requirements or the aggregator is
  embedded faithfully, in the source's evaluation order.
-/

/-- Constraint severity, ordered info < warning < important < critical
< blocking (src constraints carry these as strings). -/
inductive Severity where
  | info | warning | important | critical | blocking
deriving DecidableEq

/-- Constraint type tags used across the evaluators.  The two anonymous
structural-failure constraints pushed by the aggregator (ids
`seismic-fail` / `wind-fail` in useSpotAudit.js) are tagged
`SEISMIC_FAIL` / `WIND_FAIL`. -/
inductive CType where
  | HEIGHT_VARIANCE_OPPORTUNITY | HEIGHT_VIOLATION | FLOOR_WARNING | SCHUTZZONE
  | UNESCO_BUFFER | UNESCO_HEIGHT_VIOLATION | HEIGHT_REVIEW | LANDMARK_PROXIMITY
  | DISTRICT_1_PROTOCOL
  | TUNNEL_CRITICAL | TUNNEL_RESTRICTED | TUNNEL_MONITORING | DEPTH_CONFLICT
  | SURFACE_SEAL_EXCEEDED | HIGH_SEAL | UHI_HOTSPOT | HQ100_FLOOD_ZONE
  | SEISMIC_FAIL | WIND_FAIL
deriving DecidableEq

/-- Climate mandate type tags (climate2036.js `results.mandates`). -/
inductive MandateType where
  | FACADE_GREENING | FLOOD_ELEVATION | GREEN_ROOF | SOLAR_INSTALLATION
  | WATER_RETENTION
deriving DecidableEq

/-- One violation or advisory finding (immutable value object). -/
structure Constraint where
  ctype : CType
  severity : Severity
  message : String
deriving DecidableEq

/-- Construction material enumeration (audits/seismic.js
`MATERIAL_PROPERTIES`); unknown strings fall back to CONCRETE in the
source, so the enumeration is exactly these two values. -/
inductive Material where
  | CONCRETE | TIMBER
deriving DecidableEq

/-- The subject of an audit, as assembled by `runSpotAudit`
(useSpotAudit.js).  The hook stores the position twice (`latitude`,
`longitude` for the municipal audits, `lat`, `lng` for the structural
ones); both pairs are kept so the evaluators read exactly the fields
they destructure. -/
structure Building where
  latitude : ℚ
  longitude : ℚ
  lat : ℚ
  lng : ℚ
  height : ℚ
  floors : ℚ
  footprint : ℚ
  roofArea : ℚ
  surfaceSeal : ℚ
  basementDepth : ℚ
  groundElevation : ℚ
  hasGreenRoof : Bool
  hasSolarPanels : Bool
  material : Material
  structureType : String

/-- Neighborhood statistics produced by
`SpatialUtils.getNeighborhoodStats`. -/
structure Neighborhood where
  avgHeight : ℚ
  maxHeight : ℚ
  count : ℕ

/-- Ambient context shared read-only by the evaluators. -/
structure Context where
  district : Option ℕ
  neighborhood : Option Neighborhood

/-- JavaScript `Math.round`: round half toward positive infinity. -/
def jsRound {K : Type} [LinearOrderedField K] [FloorRing K] (x : K) : ℤ :=
  Int.floor (x + 1 / 2)

/-- District detection from fixed bounding boxes (`detectDistrict` in
useSpotAudit.js, duplicated in zoning.js and climate2036.js). -/
def detectDistrict (lat lng : ℚ) : Option ℕ :=
  if 48.200 ≤ lat ∧ lat ≤ 48.220 ∧ 16.355 ≤ lng ∧ lng ≤ 16.385 then some 1
  else if 48.205 ≤ lat ∧ lat ≤ 48.235 ∧ 16.385 ≤ lng ∧ lng ≤ 16.420 then some 2
  else if 48.195 ≤ lat ∧ lat ≤ 48.215 ∧ 16.335 ≤ lng ∧ lng ≤ 16.360 then some 7
  else none

namespace Spatial

/-- One step of the ray-casting loop in `SpatialUtils.isPointInPolygon`
(spatial.js): edge from vertex `j` (xj, yj) to vertex `i` (xi, yi).
The JS `&&` short-circuits, so the division is only reached when
`yj - yi ≠ 0`; in `ℚ` division by zero yields 0 but the conjunct is
then false anyway, so the embedding agrees with the source. -/
def edgeCrosses (x y xi yi xj yj : ℚ) : Bool :=
  (decide (y < yi) != decide (y < yj)) &&
    decide (x < (xj - xi) * (y - yi) / (yj - yi) + xi)

/-- Ray-casting point-in-polygon over one ring, with the source's
index pattern `j = i-1` (and `j = last` for `i = 0`). -/
def isPointInPolygon (lng lat : ℚ) (ring : List (ℚ × ℚ)) : Bool :=
  match ring.getLast? with
  | none => false
  | some last =>
    (ring.foldl
      (fun (st : Bool × (ℚ × ℚ)) v =>
        let inside := st.1
        let prev := st.2
        (if edgeCrosses lng lat v.1 v.2 prev.1 prev.2 then !inside else inside,
         v))
      (false, last)).1

end Spatial

namespace ZoningAudit

/-- Bauklasse identifiers I–VI (zoning.js `BAUKLASSE`). -/
inductive BK where
  | I | II | III | IV | V | VI
deriving DecidableEq

/-- Regulatory parameters of one Bauklasse. -/
structure BKSpec where
  maxHeight : ℚ
  maxFloors : ℚ
  far : ℚ

/-- The fixed `BAUKLASSE` table. -/
def bauklasse : BK → BKSpec
  | .I => ⟨9, 2, 1⟩
  | .II => ⟨12, 3, 1.3⟩
  | .III => ⟨16, 4, 1.5⟩
  | .IV => ⟨21, 6, 2⟩
  | .V => ⟨26, 7, 2.5⟩
  | .VI => ⟨35, 10, 3⟩

/-- `DISTRICT_ZONES[district] || { default: 'III' }`: the district's
default Bauklasse, with III for unknown districts. -/
def districtDefaultBK : Option ℕ → BK
  | some 1 => .IV
  | some 2 => .III
  | some 7 => .IV
  | _ => .III

/-- `getSuggestedBauklasse` (zoning.js). -/
def getSuggestedBauklasse (avgHeight : ℚ) : BK :=
  if avgHeight ≤ 9 then .I
  else if avgHeight ≤ 12 then .II
  else if avgHeight ≤ 16 then .III
  else if avgHeight ≤ 21 then .IV
  else if avgHeight ≤ 26 then .V
  else .VI

/-- Schutzzone polygons (zoning.js `SCHUTZZONEN`), in object order. -/
def schutzzonen : List (String × List (ℚ × ℚ)) :=
  [("Innere Stadt Core Protection",
    [(16.3550, 48.2050), (16.3850, 48.2050), (16.3850, 48.2150), (16.3550, 48.2150)]),
   ("Spittelberg Historic Quarter",
    [(16.3480, 48.2020), (16.3580, 48.2020), (16.3580, 48.2080), (16.3480, 48.2080)])]

/-- Result of the Zoning evaluator (fields the pipeline reads back). -/
structure Result where
  passed : Bool
  score : ℚ
  constraints : List Constraint

/-- District used by the zoning run:
`context.district || detectDistrict(latitude, longitude)`. -/
def effDistrict (b : Building) (ctx : Context) : Option ℕ :=
  ctx.district <|> detectDistrict b.latitude b.longitude

/-- The regulatory Bauklasse spec for the run. -/
def regulatorySpec (b : Building) (ctx : Context) : BKSpec :=
  bauklasse (districtDefaultBK (effDistrict b ctx))

/-- Neighborhood with the source's fallback
`context.neighborhood || { avgHeight: 0, maxHeight: 0, count: 0 }`. -/
def effNeighborhood (ctx : Context) : Neighborhood :=
  ctx.neighborhood.getD ⟨0, 0, 0⟩

/-- Suggested Bauklasse spec: `getSuggestedBauklasse(neighborhood.avgHeight
|| regulatorySpec.maxHeight)` — note the JS `||` makes an average height
of exactly 0 fall back to the regulatory maximum. -/
def suggestedSpec (b : Building) (ctx : Context) : BKSpec :=
  let reg := regulatorySpec b ctx
  let avg := (effNeighborhood ctx).avgHeight
  bauklasse (getSuggestedBauklasse (if avg = 0 then reg.maxHeight else avg))

/-- The dynamic "Urban Fabric" limit:
`Math.round(Math.max(reg.maxHeight, suggested.maxHeight
[, neighborhood.maxHeight * 0.95 when maxHeight > 0]))`. -/
def contextualLimit (b : Building) (ctx : Context) : ℤ :=
  let reg := regulatorySpec b ctx
  let sug := suggestedSpec b ctx
  let nb := effNeighborhood ctx
  let base := max reg.maxHeight sug.maxHeight
  jsRound (if 0 < nb.maxHeight then max base (nb.maxHeight * 0.95) else base)

/-- Height-compliance penalty: −15 in the variance case (over the
regulatory limit but within the contextual limit), −40 when exceeding
both, 0 when compliant. -/
def heightPenalty (b : Building) (ctx : Context) : ℚ :=
  if (regulatorySpec b ctx).maxHeight < b.height then
    (if b.height ≤ (contextualLimit b ctx : ℚ) then 15 else 40)
  else 0

/-- Height-compliance constraints matching `heightPenalty`. -/
def heightConstraints (b : Building) (ctx : Context) : List Constraint :=
  if (regulatorySpec b ctx).maxHeight < b.height then
    (if b.height ≤ (contextualLimit b ctx : ℚ) then
      [⟨.HEIGHT_VARIANCE_OPPORTUNITY, .important,
        "Building height exceeds district default but aligns with neighborhood fabric. High variance potential."⟩]
    else
      [⟨.HEIGHT_VIOLATION, .critical,
        "Height exceeds both regulatory Bauklasse and contextual scale."⟩])
  else []

/-- Floor-count warning penalty (−20), independent of `passed`. -/
def floorPenalty (b : Building) (ctx : Context) : ℚ :=
  if (regulatorySpec b ctx).maxFloors < b.floors then 20 else 0

/-- Floor-count warning constraints. -/
def floorConstraints (b : Building) (ctx : Context) : List Constraint :=
  if (regulatorySpec b ctx).maxFloors < b.floors then
    [⟨.FLOOR_WARNING, .warning, "Floor count exceeds typical for Bauklasse"⟩]
  else []

/-- First Schutzzone containing the point, if any (the source loop
breaks at the first hit). -/
def schutzzoneHit (b : Building) : Option String :=
  (schutzzonen.find? fun z =>
    Spatial.isPointInPolygon b.longitude b.latitude z.2).map (·.1)

/-- Schutzzone penalty (−10 on first hit). -/
def schutzPenalty (b : Building) : ℚ :=
  if (schutzzoneHit b).isSome then 10 else 0

/-- Schutzzone constraints. -/
def schutzConstraints (b : Building) : List Constraint :=
  if (schutzzoneHit b).isSome then
    [⟨.SCHUTZZONE, .important, "Located in protection zone - special approvals required"⟩]
  else []

/-- `ZoningAudit.execute(building, context)` (zoning.js).  The running
score starts at 100, each check subtracts its penalty in order, and the
result is clamped by `Math.max(0, score)`; `passed` is set to false
exactly when the height exceeds the regulatory limit. -/
def execute (b : Building) (ctx : Context) : Result :=
  { passed := !decide ((regulatorySpec b ctx).maxHeight < b.height)
    score := max 0 (100 - heightPenalty b ctx - floorPenalty b ctx - schutzPenalty b)
    constraints := heightConstraints b ctx ++ floorConstraints b ctx ++ schutzConstraints b }

end ZoningAudit

namespace HeritageAudit

/-- A protected landmark (heritage.js `UNESCO_BUFFER.landmarks`, name
strings elided): latitude, longitude, protection radius in meters. -/
structure Landmark where
  lat : ℚ
  lng : ℚ
  protectionRadius : ℚ
deriving DecidableEq

/-- The UNESCO buffer polygon ring (heritage.js `UNESCO_BUFFER.core`). -/
def unescoCore : List (ℚ × ℚ) :=
  [(16.3550, 48.2000), (16.3900, 48.2000), (16.3900, 48.2200), (16.3550, 48.2200)]

/-- The strict UNESCO height limit (43 m). -/
def unescoHeightLimit : ℚ := 43

/-- The three landmarks: St. Stephens Cathedral, Hofburg Palace,
Vienna State Opera. -/
def landmarks : List Landmark :=
  [⟨48.2084, 16.3731, 200⟩, ⟨48.2064, 16.3659, 300⟩, ⟨48.2036, 16.3692, 150⟩]

/-- Result of the Heritage evaluator. -/
structure Result where
  passed : Bool
  score : ℚ
  constraints : List Constraint

/-- Whether the building lies in the UNESCO buffer polygon. -/
def inUnescoZone (b : Building) : Bool :=
  Spatial.isPointInPolygon b.longitude b.latitude unescoCore

/-- Height penalty inside the UNESCO zone: −50 (blocking) above the
43 m limit, else −15 (warning) above 35 m; nothing outside the zone. -/
def heightPenalty (b : Building) : ℚ :=
  if inUnescoZone b then
    (if unescoHeightLimit < b.height then 50 else if (35 : ℚ) < b.height then 15 else 0)
  else 0

/-- UNESCO-zone constraints: the critical UNESCO_BUFFER advisory is
pushed for every in-zone building, before any height-check
constraint. -/
def unescoConstraints (b : Building) : List Constraint :=
  if inUnescoZone b then
    ⟨.UNESCO_BUFFER, .critical, "Located within UNESCO World Heritage buffer zone"⟩ ::
    (if unescoHeightLimit < b.height then
      [⟨.UNESCO_HEIGHT_VIOLATION, .blocking,
        "Height violates UNESCO 43m limit - AUTOMATIC REJECTION"⟩]
    else if (35 : ℚ) < b.height then
      [⟨.HEIGHT_REVIEW, .warning, "Height requires enhanced heritage review (>35m)"⟩]
    else [])
  else []

/-- Landmarks whose protection radius covers the building under the
distance function `d` (the source computes
`getDistance(latitude, longitude, landmark.lat, landmark.lng)` and
compares it with `landmark.protectionRadius`). -/
def landmarksNear {K : Type} [LinearOrderedField K]
    (d : ℚ → ℚ → ℚ → ℚ → K) (b : Building) : List Landmark :=
  landmarks.filter fun L =>
    d b.latitude b.longitude L.lat L.lng < (L.protectionRadius : K)

/-- Landmark-proximity constraints: one per landmark within radius. -/
def landmarkConstraints {K : Type} [LinearOrderedField K]
    (d : ℚ → ℚ → ℚ → ℚ → K) (b : Building) : List Constraint :=
  (landmarksNear d b).map fun _ =>
    ⟨.LANDMARK_PROXIMITY, .important, "Close to landmark - design review required"⟩

/-- District-1 informational constraint
(`district = context.district || 1`). -/
def districtConstraints (ctx : Context) : List Constraint :=
  if ctx.district.getD 1 = 1 then
    [⟨.DISTRICT_1_PROTOCOL, .info,
      "District 1 requires MA 19 preliminary consultation before submission"⟩]
  else []

/-- `HeritageAudit.execute(building, context)` (heritage.js): score
starts at 100, minus the UNESCO height penalty, minus 10 per landmark
within its protection radius, clamped by `Math.max(0, score)`;
`passed` flips to false only on the blocking height violation. -/
def execute {K : Type} [LinearOrderedField K]
    (d : ℚ → ℚ → ℚ → ℚ → K) (b : Building) (ctx : Context) : Result :=
  { passed := !decide (inUnescoZone b = true ∧ unescoHeightLimit < b.height)
    score := max 0 (100 - heightPenalty b - 10 * ((landmarksNear d b).length : ℚ))
    constraints := unescoConstraints b ++ landmarkConstraints d b ++ districtConstraints ctx }

end HeritageAudit

namespace SubsurfaceAudit

/-- One U-Bahn station with its line's average tunnel depth
(subsurface.js `UBAHN_LINES`, flattened in object/array order:
U1, U2, U3, U4). -/
structure Station where
  lat : ℚ
  lng : ℚ
  tunnelDepth : ℚ
deriving DecidableEq

/-- All stations in iteration order. -/
def stations : List Station :=
  [⟨48.2084, 16.3725, 20⟩, ⟨48.2120, 16.3775, 20⟩, ⟨48.2189, 16.3917, 20⟩,
   ⟨48.2107, 16.3565, 15⟩, ⟨48.2154, 16.3611, 15⟩, ⟨48.2189, 16.3917, 15⟩,
   ⟨48.2084, 16.3725, 18⟩, ⟨48.2107, 16.3658, 18⟩, ⟨48.2052, 16.3589, 18⟩,
   ⟨48.2120, 16.3775, 12⟩, ⟨48.2063, 16.3868, 12⟩, ⟨48.2007, 16.3692, 12⟩]

/-- Result of the Subsurface evaluator. -/
structure Result where
  passed : Bool
  score : ℚ
  constraints : List Constraint

/-- The nearest-station scan (subsurface.js): `nearestDistance` starts
at `Infinity` (modelled as `none`); each raw distance is compared
against the stored value and, when smaller, stored rounded
(`Math.round(distance)`) together with the line's tunnel depth.  Note
the source compares the raw distance with the previously *rounded*
stored value; the fold reproduces that. -/
def nearestScan {K : Type} [LinearOrderedField K] [FloorRing K]
    (d : ℚ → ℚ → ℚ → ℚ → K) (b : Building) : Option (ℤ × ℚ) :=
  stations.foldl
    (fun acc s =>
      let dist := d b.latitude b.longitude s.lat s.lng
      match acc with
      | none => some (jsRound dist, s.tunnelDepth)
      | some (nd, td) =>
        if dist < (nd : K) then some (jsRound dist, s.tunnelDepth) else some (nd, td))
    none

/-- Proximity-band penalty on the rounded nearest distance:
<30 m blocking −50, <50 m critical −30, <100 m warning −10, else 0. -/
def bandPenalty (nd : ℤ) : ℚ :=
  if nd < 30 then 50 else if nd < 50 then 30 else if nd < 100 then 10 else 0

/-- Proximity-band constraints matching `bandPenalty`. -/
def bandConstraints (nd : ℤ) : List Constraint :=
  if nd < 30 then
    [⟨.TUNNEL_CRITICAL, .blocking,
      "CONSTRUCTION BAN without Wiener Linien approval"⟩]
  else if nd < 50 then
    [⟨.TUNNEL_RESTRICTED, .critical, "Enhanced structural assessment required"⟩]
  else if nd < 100 then
    [⟨.TUNNEL_MONITORING, .warning,
      "Vibration monitoring required during construction"⟩]
  else []

/-- Depth-conflict penalty: −20 when a nearest line exists, the
basement depth is positive and exceeds `tunnelDepth - 5`; fires
independently of the horizontal proximity band. -/
def depthPenalty (td basementDepth : ℚ) : ℚ :=
  if 0 < basementDepth ∧ td - 5 < basementDepth then 20 else 0

/-- Depth-conflict constraints matching `depthPenalty`. -/
def depthConstraints (td basementDepth : ℚ) : List Constraint :=
  if 0 < basementDepth ∧ td - 5 < basementDepth then
    [⟨.DEPTH_CONFLICT, .critical, "Basement depth may conflict with tunnel"⟩]
  else []

/-- `SubsurfaceAudit.execute(building, context)` (subsurface.js). -/
def execute {K : Type} [LinearOrderedField K] [FloorRing K]
    (d : ℚ → ℚ → ℚ → ℚ → K) (b : Building) : Result :=
  match nearestScan d b with
  | none => { passed := true, score := 100, constraints := [] }
  | some (nd, td) =>
    { passed := !decide (nd < 30)
      score := max 0 (100 - bandPenalty nd - depthPenalty td b.basementDepth)
      constraints := bandConstraints nd ++ depthConstraints td b.basementDepth }

end SubsurfaceAudit

namespace Climate2036Audit

/-- HQ100 flood-zone polygon (climate2036.js `HQ100_ZONE`). -/
def hq100Polygon : List (ℚ × ℚ) :=
  [(16.3750, 48.2100), (16.4000, 48.2100), (16.4000, 48.2250), (16.3750, 48.2250)]

/-- UHI category from distance to the city centre
(`calculateUHIIntensity`).  The source compares
`sqrt((lat-c1)^2 + (lng-c2)^2) * 111` against 1, 2 and 4 km; both
sides are nonnegative, so squaring gives the exactly equivalent
rational comparisons used here (`111^2 = 12321`). -/
inductive UHICategory where
  | extreme | high | moderate | low
deriving DecidableEq

/-- Squared degree-distance from the Vienna centre used by the UHI
classifier. -/
def uhiDistSq (lat lng : ℚ) : ℚ :=
  (lat - 48.2082) ^ 2 + (lng - 16.3738) ^ 2

/-- `calculateUHIIntensity(lat, lng).category`. -/
def uhiCategory (lat lng : ℚ) : UHICategory :=
  if uhiDistSq lat lng * 12321 < 1 then .extreme
  else if uhiDistSq lat lng * 12321 < 4 then .high
  else if uhiDistSq lat lng * 12321 < 16 then .moderate
  else .low

/-- Result of the Climate 2036 evaluator. -/
structure Result where
  passed : Bool
  score : ℚ
  constraints : List Constraint
  mandates : List MandateType

/-- Surface-seal penalty: −50 (blocking, automatic rejection) above
80 %, else −15 (warning) above 70 %. -/
def sealPenalty (b : Building) : ℚ :=
  if 80 < b.surfaceSeal then 50 else if 70 < b.surfaceSeal then 15 else 0

/-- Surface-seal constraints. -/
def sealConstraints (b : Building) : List Constraint :=
  if 80 < b.surfaceSeal then
    [⟨.SURFACE_SEAL_EXCEEDED, .blocking,
      "Surface seal exceeds 80% limit - AUTOMATIC REJECTION"⟩]
  else if 70 < b.surfaceSeal then
    [⟨.HIGH_SEAL, .warning, "Surface seal requires enhanced greening measures"⟩]
  else []

/-- Whether the UHI check fires (category extreme or high). -/
def uhiHot (b : Building) : Bool :=
  decide (uhiCategory b.latitude b.longitude = .extreme ∨
          uhiCategory b.latitude b.longitude = .high)

/-- District used by the climate run. -/
def effDistrict (b : Building) (ctx : Context) : Option ℕ :=
  ctx.district <|> detectDistrict b.latitude b.longitude

/-- Whether the HQ100 flood-zone check fires (district 2 and inside
the polygon). -/
def inFloodZone (b : Building) (ctx : Context) : Bool :=
  decide (effDistrict b ctx = some 2) &&
    Spatial.isPointInPolygon b.longitude b.latitude hq100Polygon

/-- Flood-elevation penalty: −25 when in the flood zone with ground
elevation below the required 2.5 m. -/
def floodPenalty (b : Building) (ctx : Context) : ℚ :=
  if inFloodZone b ctx ∧ b.groundElevation < 2.5 then 25 else 0

/-- Green-roof penalty: −10 for footprint ≥ 500 m² with no green
roof. -/
def greenRoofPenalty (b : Building) : ℚ :=
  if 500 ≤ b.footprint ∧ b.hasGreenRoof = false then 10 else 0

/-- Solar penalty: −5 for roof area ≥ 250 m² with no panels. -/
def solarPenalty (b : Building) : ℚ :=
  if 250 ≤ b.roofArea ∧ b.hasSolarPanels = false then 5 else 0

/-- `Climate2036Audit.execute(building, context)` (climate2036.js):
all checks run unconditionally, their deltas add, the result is
clamped by `Math.max(0, score)`; `passed` flips to false only for the
blocking surface-seal rejection.  The always-present water-retention
mandate carries no score effect. -/
def execute (b : Building) (ctx : Context) : Result :=
  { passed := !decide (80 < b.surfaceSeal)
    score := max 0 (100 - sealPenalty b - (if uhiHot b then 10 else 0)
      - floodPenalty b ctx - greenRoofPenalty b - solarPenalty b)
    constraints := sealConstraints b
      ++ (if uhiHot b then
            [⟨.UHI_HOTSPOT, .important, "Located in high UHI zone"⟩] else [])
      ++ (if inFloodZone b ctx then
            [⟨.HQ100_FLOOD_ZONE, .critical,
              "Located in HQ100 flood zone - elevated ground floor required"⟩]
          else [])
    mandates := (if uhiHot b then [MandateType.FACADE_GREENING] else [])
      ++ (if inFloodZone b ctx ∧ b.groundElevation < 2.5 then
            [MandateType.FLOOD_ELEVATION] else [])
      ++ (if 500 ≤ b.footprint ∧ b.hasGreenRoof = false then
            [MandateType.GREEN_ROOF] else [])
      ++ (if 250 ≤ b.roofArea ∧ b.hasSolarPanels = false then
            [MandateType.SOLAR_INSTALLATION] else [])
      ++ [MandateType.WATER_RETENTION] }

end Climate2036Audit

namespace SeismicAudit

/-- Result of the structural evaluators (Seismic and WindLoad): the
aggregator reads `passed`, `score` and `requirements[0]`. -/
structure Result where
  passed : Bool
  score : ℚ
  requirements : List String
deriving DecidableEq

/-- Whether the site is in the Vienna Basin sediment zone
(`lng < 16.35` is the Flysch bedrock zone). -/
def inSedimentZone (b : Building) : Bool :=
  !decide (b.lng < 16.35)

/-- `SeismicAudit.execute(building)` for a present building
(audits/seismic.js, the material-aware variant wired into the
aggregator): `status` starts at PASSED and is never reassigned, so
the evaluator always passes; the score is 90 (timber bonus) or 75
(concrete, damper recommended) for tall sediment-zone buildings,
98 on bedrock, else 92 plus a 5-point timber bonus. -/
def exec (b : Building) : Result :=
  if inSedimentZone b ∧ 40 < b.height then
    (if b.material = .TIMBER then
      { passed := true, score := 90
        requirements := ["Verify CLT connections per EN 1995-1-1 for seismic"] }
    else
      { passed := true, score := 75
        requirements :=
          ["Damping System: Tuned Mass Damper Recommended for optimal resilience"] })
  else if ¬inSedimentZone b then
    { passed := true, score := 98, requirements := [] }
  else
    { passed := true
      score := 92 + (if b.material = .TIMBER then 5 else 0)
      requirements := [] }

/-- `SeismicAudit.execute` including the `if (!building) return null`
guard: a missing building yields `none`, not an AuditResult. -/
def executeOpt : Option Building → Option Result
  | none => none
  | some b => some (exec b)

end SeismicAudit

namespace LegacySeismicAudit

/-- Structure types the legacy evaluator treats as high-risk in the
sediment zone (services/legacy/seismic.js `highRiskStructures`). -/
def highRiskStructures : List String := ["masonry", "bearing_wall", "timber"]

/-- Modelled from services/legacy/seismic.js (the archived variant):
a tall sediment-zone building with a high-risk structural system
FAILS with score 30 and a mandatory structural-system change;
otherwise it passes with score 80 (damper recommended); bedrock 98;
standard sediment 92.  No material bonus exists in this variant. -/
def exec (b : Building) : SeismicAudit.Result :=
  if SeismicAudit.inSedimentZone b ∧ 40 < b.height then
    (if b.structureType ∈ highRiskStructures then
      { passed := false, score := 30
        requirements :=
          ["Structural System Change: Reinforced Concrete Core or Steel Frame REQUIRED"] }
    else
      { passed := true, score := 80
        requirements :=
          ["Damping System: Tuned Mass Damper Recommended for optimal resilience"] })
  else if ¬SeismicAudit.inSedimentZone b then
    { passed := true, score := 98, requirements := [] }
  else
    { passed := true, score := 92, requirements := [] }

end LegacySeismicAudit

namespace WindLoadAudit

/-- One feature of the building dataset passed to the wind audit:
representative coordinates (first vertex for polygons, `none` for
geometries the source skips) and height. -/
structure Feature where
  coordLng : ℚ
  coordLat : ℚ
  hasCoords : Bool
  height : ℚ

/-- `SpatialUtils.countFeaturesInRadius(point, features, radius)`
(spatial.js): a cheap degree-based bounding-box pre-filter
(`radius / 111000` degrees) followed by the authoritative exact
distance check `d ≤ radius`. -/
def countFeaturesInRadius {K : Type} [LinearOrderedField K]
    (d : ℚ → ℚ → ℚ → ℚ → K) (lat lng : ℚ) (features : List Feature)
    (radius : ℚ) : ℕ :=
  (features.filter fun f =>
    f.hasCoords &&
    !decide (radius / 111000 < |f.coordLat - lat|) &&
    !decide (radius / 111000 < |f.coordLng - lng|) &&
    decide (d lat lng f.coordLat f.coordLng ≤ (radius : K))).length

/-- Shielding neighbor count (wind_load.js): features within 150 m,
minus one for the building itself, floored at 0; an empty dataset
short-circuits to 0. -/
def neighborCount {K : Type} [LinearOrderedField K]
    (d : ℚ → ℚ → ℚ → ℚ → K) (b : Building) (features : List Feature) : ℕ :=
  if features.length = 0 then 0
  else countFeaturesInRadius d b.lat b.lng features 150 - 1

/-- `WindLoadAudit.execute(building, allBuildings)` for a present
building (wind_load.js): three shielding bands (65 / 90 / 98), then
the tall-and-exposed override to a hard fail with score 40. -/
def exec {K : Type} [LinearOrderedField K]
    (d : ℚ → ℚ → ℚ → ℚ → K) (b : Building) (features : List Feature) :
    SeismicAudit.Result :=
  if neighborCount d b features < 3 then
    (if 60 < b.height then
      { passed := false, score := 40
        requirements :=
          ["High-Wind Bracing: Reinforced Facade Class A+ REQUIREMENT",
           "Advanced Aerodynamics: Wind Tunnel Testing MANDATORY"] }
    else
      { passed := false, score := 65
        requirements := ["High-Wind Bracing: Reinforced Facade Class A+ REQUIREMENT"] })
  else if neighborCount d b features < 10 then
    { passed := true, score := 90, requirements := [] }
  else
    { passed := true, score := 98, requirements := [] }

/-- `WindLoadAudit.execute` including the `if (!building) return null`
guard. -/
def executeOpt {K : Type} [LinearOrderedField K]
    (d : ℚ → ℚ → ℚ → ℚ → K) (features : List Feature) :
    Option Building → Option SeismicAudit.Result
  | none => none
  | some b => some (exec d b features)

end WindLoadAudit

namespace Aggregator

/-- The final verdict record built by `executeAllAudits`
(useSpotAudit.js): per-domain results, the unioned constraint list,
the collected mandates, feasibility, status, key risk, and the
pass count over the fixed total of 5 domains. -/
structure AggregateResult where
  zoning : ZoningAudit.Result
  heritage : HeritageAudit.Result
  subsurface : SubsurfaceAudit.Result
  climate : Climate2036Audit.Result
  seismic : SeismicAudit.Result
  wind : SeismicAudit.Result
  constraints : List Constraint
  mandates : List MandateType
  feasibility : ℤ
  status : String
  keyRisk : String
  passedCount : ℕ
  totalAudits : ℕ

/-- Overall feasibility from the five domain scores, the structural
domain being the seismic/wind average:
`Math.round(totalScore / 5)` with
`totalScore = zoning + heritage + subsurface + climate +
(seismic + wind) / 2`. -/
def domainFeasibility (z h s c se w : ℚ) : ℤ :=
  jsRound ((z + h + s + c + (se + w) / 2) / 5)

/-- The §4.5 status decision, first match wins:
blocking → REJECTED; all five domains passed and feasibility ≥ 80 →
HIGH; feasibility ≥ 60 → MEDIUM; else LOW (status strings as in the
source). -/
def statusOf (hasBlocking allPassed : Bool) (feasibility : ℤ) : String :=
  if hasBlocking then "REJECTED"
  else if allPassed && decide (80 ≤ feasibility) then "HIGH - Ready for Submission"
  else if decide (60 ≤ feasibility) then "MEDIUM - Proceed with Caution"
  else "LOW - Significant Issues"

/-- Key risk: the message of the first constraint in the union whose
severity is blocking or critical, else the fixed placeholder. -/
def keyRiskOf (constraints : List Constraint) : String :=
  match constraints.filter
    (fun c => decide (c.severity = .blocking) || decide (c.severity = .critical)) with
  | [] => "No critical constraints"
  | c :: _ => c.message

/-- `executeAllAudits(building, context)` (useSpotAudit.js): runs the
six evaluators in phase order (zoning, heritage, subsurface, climate,
then seismic and wind as the joint structural domain), unions their
constraints in that order (structural failures contribute synthetic
critical constraints carrying `requirements[0]`), sums the five domain
scores with the seismic/wind pair averaged, and derives feasibility,
status and key risk.  `ds` is the building dataset handed to the wind
audit (`buildingsData.features` in the source); `d` is the
great-circle distance function. -/
def executeAllAudits {K : Type} [LinearOrderedField K] [FloorRing K]
    (d : ℚ → ℚ → ℚ → ℚ → K) (ds : List WindLoadAudit.Feature)
    (b : Building) (ctx : Context) : AggregateResult :=
  let z := ZoningAudit.execute b ctx
  let h := HeritageAudit.execute d b ctx
  let s := SubsurfaceAudit.execute d b
  let c := Climate2036Audit.execute b ctx
  let se := SeismicAudit.exec b
  let w := WindLoadAudit.exec d b ds
  let structuralConstraints :=
    (if se.passed then [] else
      [⟨CType.SEISMIC_FAIL, Severity.critical, se.requirements.headD ""⟩])
    ++ (if w.passed then [] else
      [⟨CType.WIND_FAIL, Severity.critical, w.requirements.headD ""⟩])
  let allConstraints := z.constraints ++ h.constraints ++ s.constraints
    ++ c.constraints ++ structuralConstraints
  let passedCount := (if z.passed then 1 else 0) + (if h.passed then 1 else 0)
    + (if s.passed then 1 else 0) + (if c.passed then 1 else 0)
    + (if se.passed && w.passed then 1 else 0)
  let feasibility := domainFeasibility z.score h.score s.score c.score se.score w.score
  let hasBlocking := allConstraints.any fun con => decide (con.severity = .blocking)
  { zoning := z, heritage := h, subsurface := s, climate := c, seismic := se, wind := w
    constraints := allConstraints
    mandates := c.mandates
    feasibility := feasibility
    status := statusOf hasBlocking (passedCount == 5) feasibility
    keyRisk := keyRiskOf allConstraints
    passedCount := passedCount
    totalAudits := 5 }

end Aggregator

namespace Spatial

open Real

/-- JavaScript `Math.atan2(y, x)`. -/
noncomputable def jsAtan2 (y x : ℝ) : ℝ :=
  if 0 < x then Real.arctan (y / x)
  else if x < 0 then
    (if y < 0 then Real.arctan (y / x) - Real.pi else Real.arctan (y / x) + Real.pi)
  else if 0 < y then Real.pi / 2
  else if y < 0 then -(Real.pi / 2)
  else 0

/-- The haversine intermediate `a` of `SpatialUtils.getDistance`
(spatial.js): `sin(dPhi/2)^2 + cos(phi1) * cos(phi2) * sin(dLambda/2)^2`
with the latitudes and deltas converted to radians. -/
noncomputable def havA (lat1 lon1 lat2 lon2 : ℝ) : ℝ :=
  let phi1 := lat1 * Real.pi / 180
  let phi2 := lat2 * Real.pi / 180
  let dPhi := (lat2 - lat1) * Real.pi / 180
  let dLam := (lon2 - lon1) * Real.pi / 180
  Real.sin (dPhi / 2) * Real.sin (dPhi / 2) +
    Real.cos phi1 * Real.cos phi2 * (Real.sin (dLam / 2) * Real.sin (dLam / 2))

/-- `SpatialUtils.getDistance(lat1, lon1, lat2, lon2)` (spatial.js):
haversine great-circle distance on a sphere of radius 6 371 000 m,
`R * 2 * atan2(sqrt(a), sqrt(1 - a))`. -/
noncomputable def getDistanceR (lat1 lon1 lat2 lon2 : ℝ) : ℝ :=
  6371000 * (2 * jsAtan2 (Real.sqrt (havA lat1 lon1 lat2 lon2))
    (Real.sqrt (1 - havA lat1 lon1 lat2 lon2)))

/-- The source's distance function at rational coordinates, as passed
to the evaluators (their coordinates are rational literals). -/
noncomputable def getDistanceQ (lat1 lon1 lat2 lon2 : ℚ) : ℝ :=
  getDistanceR (lat1 : ℝ) (lon1 : ℝ) (lat2 : ℝ) (lon2 : ℝ)

end Spatial

namespace Spatial

/-- The haversine intermediate vanishes at identical points. -/
theorem havA_self (lat lon : ℝ) : havA lat lon lat lon = 0 := by
  simp [havA]

/-- The haversine intermediate is symmetric in its two points. -/
theorem havA_symm (lat1 lon1 lat2 lon2 : ℝ) :
    havA lat1 lon1 lat2 lon2 = havA lat2 lon2 lat1 lon1 := by
  unfold havA
  have h1 : (lat1 - lat2) * Real.pi / 180 / 2 = -((lat2 - lat1) * Real.pi / 180 / 2) := by
    ring
  have h2 : (lon1 - lon2) * Real.pi / 180 / 2 = -((lon2 - lon1) * Real.pi / 180 / 2) := by
    ring
  simp only [h1, h2, Real.sin_neg]
  ring

/-- The source distance at identical points is exactly 0. -/
theorem getDistanceR_self (lat lon : ℝ) : getDistanceR lat lon lat lon = 0 := by
  simp [getDistanceR, havA_self, jsAtan2]

/-- The source distance is symmetric. -/
theorem getDistanceR_symm (lat1 lon1 lat2 lon2 : ℝ) :
    getDistanceR lat1 lon1 lat2 lon2 = getDistanceR lat2 lon2 lat1 lon1 := by
  unfold getDistanceR
  rw [havA_symm]

/-- Rational-coordinate version of `getDistanceR_self`. -/
theorem getDistanceQ_self (lat lon : ℚ) : getDistanceQ lat lon lat lon = 0 :=
  getDistanceR_self (lat : ℝ) (lon : ℝ)

end Spatial

namespace ZoningAudit

/-- The zoning height penalty is one of 0, 15, 40. -/
theorem zoningHeightPenalty_bounds (b : Building) (ctx : Context) :
    0 ≤ heightPenalty b ctx ∧ heightPenalty b ctx ≤ 40 := by
  unfold heightPenalty
  split
  · split <;> norm_num
  · norm_num

/-- The floor penalty is 0 or 20. -/
theorem floorPenalty_nonneg (b : Building) (ctx : Context) :
    0 ≤ floorPenalty b ctx ∧ floorPenalty b ctx ≤ 20 := by
  unfold floorPenalty
  split <;> norm_num

/-- The Schutzzone penalty is 0 or 10. -/
theorem schutzPenalty_nonneg (b : Building) :
    0 ≤ schutzPenalty b ∧ schutzPenalty b ≤ 10 := by
  unfold schutzPenalty
  split <;> norm_num

/-- Zoning scores always lie in [0, 100]. -/
theorem zoning_score_bounds (b : Building) (ctx : Context) :
    0 ≤ (execute b ctx).score ∧ (execute b ctx).score ≤ 100 := by
  have h1 := zoningHeightPenalty_bounds b ctx
  have h2 := floorPenalty_nonneg b ctx
  have h3 := schutzPenalty_nonneg b
  unfold execute
  constructor
  · exact le_max_left 0 _
  · exact max_le (by norm_num) (by linarith [h1.1, h2.1, h3.1])

end ZoningAudit

namespace HeritageAudit

/-- The heritage height penalty is one of 0, 15, 50. -/
theorem heritageHeightPenalty_bounds (b : Building) :
    0 ≤ heightPenalty b ∧ heightPenalty b ≤ 50 := by
  unfold heightPenalty
  split
  · split
    · norm_num
    · split <;> norm_num
  · norm_num

/-- Heritage scores always lie in [0, 100]. -/
theorem heritage_score_bounds {K : Type} [LinearOrderedField K]
    (d : ℚ → ℚ → ℚ → ℚ → K) (b : Building) (ctx : Context) :
    0 ≤ (execute d b ctx).score ∧ (execute d b ctx).score ≤ 100 := by
  have h1 := heritageHeightPenalty_bounds b
  have h2 : (0 : ℚ) ≤ 10 * ((landmarksNear d b).length : ℚ) := by positivity
  unfold execute
  constructor
  · exact le_max_left 0 _
  · exact max_le (by norm_num) (by linarith [h1.1])

end HeritageAudit

namespace SubsurfaceAudit

/-- The proximity-band penalty is one of 0, 10, 30, 50. -/
theorem bandPenalty_nonneg (nd : ℤ) : 0 ≤ bandPenalty nd ∧ bandPenalty nd ≤ 50 := by
  unfold bandPenalty
  split
  · norm_num
  · split
    · norm_num
    · split <;> norm_num

/-- The depth-conflict penalty is 0 or 20. -/
theorem depthPenalty_nonneg (td bd : ℚ) : 0 ≤ depthPenalty td bd ∧ depthPenalty td bd ≤ 20 := by
  unfold depthPenalty
  split <;> norm_num

/-- Subsurface scores always lie in [0, 100]. -/
theorem subsurface_score_bounds {K : Type} [LinearOrderedField K] [FloorRing K]
    (d : ℚ → ℚ → ℚ → ℚ → K) (b : Building) :
    0 ≤ (execute d b).score ∧ (execute d b).score ≤ 100 := by
  unfold execute
  cases h : nearestScan d b with
  | none => norm_num
  | some p =>
    have h1 := bandPenalty_nonneg p.1
    have h2 := depthPenalty_nonneg p.2 b.basementDepth
    constructor
    · exact le_max_left 0 _
    · exact max_le (by norm_num) (by linarith [h1.1, h2.1])

end SubsurfaceAudit

namespace Climate2036Audit

/-- The surface-seal penalty is one of 0, 15, 50. -/
theorem sealPenalty_nonneg (b : Building) : 0 ≤ sealPenalty b ∧ sealPenalty b ≤ 50 := by
  unfold sealPenalty
  split
  · norm_num
  · split <;> norm_num

/-- The flood penalty is 0 or 25. -/
theorem floodPenalty_nonneg (b : Building) (ctx : Context) :
    0 ≤ floodPenalty b ctx ∧ floodPenalty b ctx ≤ 25 := by
  unfold floodPenalty
  split <;> norm_num

/-- The green-roof penalty is 0 or 10. -/
theorem greenRoofPenalty_nonneg (b : Building) :
    0 ≤ greenRoofPenalty b ∧ greenRoofPenalty b ≤ 10 := by
  unfold greenRoofPenalty
  split <;> norm_num

/-- The solar penalty is 0 or 5. -/
theorem solarPenalty_nonneg (b : Building) : 0 ≤ solarPenalty b ∧ solarPenalty b ≤ 5 := by
  unfold solarPenalty
  split <;> norm_num

/-- Climate scores always lie in [0, 100]. -/
theorem climate_score_bounds (b : Building) (ctx : Context) :
    0 ≤ (execute b ctx).score ∧ (execute b ctx).score ≤ 100 := by
  have h1 := sealPenalty_nonneg b
  have h2 := floodPenalty_nonneg b ctx
  have h3 := greenRoofPenalty_nonneg b
  have h4 := solarPenalty_nonneg b
  have h5 : (0 : ℚ) ≤ if uhiHot b then 10 else 0 := by split <;> norm_num
  unfold execute
  constructor
  · exact le_max_left 0 _
  · exact max_le (by norm_num) (by linarith [h1.1, h2.1, h3.1, h4.1])

end Climate2036Audit

namespace SeismicAudit

/-- Seismic scores always lie in [0, 100] (they are drawn from the
fixed set 75, 90, 92, 97, 98). -/
theorem seismic_score_bounds (b : Building) : 0 ≤ (exec b).score ∧ (exec b).score ≤ 100 := by
  unfold exec
  split
  · split <;> norm_num
  · split
    · norm_num
    · split <;> norm_num

end SeismicAudit

namespace WindLoadAudit

/-- Wind scores always lie in [0, 100] (fixed set 40, 65, 90, 98). -/
theorem wind_score_bounds {K : Type} [LinearOrderedField K]
    (d : ℚ → ℚ → ℚ → ℚ → K) (b : Building) (ds : List Feature) :
    0 ≤ (exec d b ds).score ∧ (exec d b ds).score ≤ 100 := by
  unfold exec
  split
  · split <;> norm_num
  · split <;> norm_num

end WindLoadAudit

/-- C9: the great-circle distance function returns 0 when both points
are identical — in particular at (48.2082, 16.3738) — and is symmetric:
`getDistance(A, B) = getDistance(B, A)` for any two points. -/
theorem distance_zero_and_symmetric :
    Spatial.getDistanceR 48.2082 16.3738 48.2082 16.3738 = 0 ∧
    ∀ lat1 lon1 lat2 lon2 : ℝ,
      Spatial.getDistanceR lat1 lon1 lat2 lon2 = Spatial.getDistanceR lat2 lon2 lat1 lon1 :=
  ⟨Spatial.getDistanceR_self 48.2082 16.3738, Spatial.getDistanceR_symm⟩

/-- C3: for every Building and Context (and any distance function and
dataset), every evaluator's returned score lies in [0, 100] — never
negative and never over 100, however many penalties accumulate —
for Zoning, Heritage, Subsurface, Climate, Seismic and WindLoad. -/
theorem evaluator_scores_in_range {K : Type} [LinearOrderedField K] [FloorRing K]
    (d : ℚ → ℚ → ℚ → ℚ → K) (ds : List WindLoadAudit.Feature)
    (b : Building) (ctx : Context) :
    (0 ≤ (ZoningAudit.execute b ctx).score ∧ (ZoningAudit.execute b ctx).score ≤ 100) ∧
    (0 ≤ (HeritageAudit.execute d b ctx).score ∧ (HeritageAudit.execute d b ctx).score ≤ 100) ∧
    (0 ≤ (SubsurfaceAudit.execute d b).score ∧ (SubsurfaceAudit.execute d b).score ≤ 100) ∧
    (0 ≤ (Climate2036Audit.execute b ctx).score ∧ (Climate2036Audit.execute b ctx).score ≤ 100) ∧
    (0 ≤ (SeismicAudit.exec b).score ∧ (SeismicAudit.exec b).score ≤ 100) ∧
    (0 ≤ (WindLoadAudit.exec d b ds).score ∧ (WindLoadAudit.exec d b ds).score ≤ 100) :=
  ⟨ZoningAudit.zoning_score_bounds b ctx, HeritageAudit.heritage_score_bounds d b ctx,
   SubsurfaceAudit.subsurface_score_bounds d b, Climate2036Audit.climate_score_bounds b ctx,
   SeismicAudit.seismic_score_bounds b, WindLoadAudit.wind_score_bounds d b ds⟩

/-- C2: for every audit run, feasibility is the JS-rounded mean of
exactly five domain scores, the structural domain being the mean of
the seismic and wind scores; and at the literal inputs seismic = 80,
wind = 90 with the other four domains at 100 the formula yields 97. -/
theorem aggregator_feasibility_mean {K : Type} [LinearOrderedField K] [FloorRing K]
    (d : ℚ → ℚ → ℚ → ℚ → K) (ds : List WindLoadAudit.Feature)
    (b : Building) (ctx : Context) :
    (Aggregator.executeAllAudits d ds b ctx).feasibility
      = Aggregator.domainFeasibility (ZoningAudit.execute b ctx).score
          (HeritageAudit.execute d b ctx).score (SubsurfaceAudit.execute d b).score
          (Climate2036Audit.execute b ctx).score (SeismicAudit.exec b).score
          (WindLoadAudit.exec d b ds).score
    ∧ Aggregator.domainFeasibility 100 100 100 100 80 90 = 97 := by
  constructor
  · rfl
  · norm_num [Aggregator.domainFeasibility, jsRound]

/-- C1: the aggregator's status decision follows the §4.5 rules in
exact order with first match winning — the status equals
`statusOf hasBlocking (passedCount = 5) feasibility`, any run whose
unioned constraint list contains a blocking constraint is REJECTED
(regardless of pass flags and feasibility, e.g. feasibility 95 with
all domains passed), and with no blocking constraint HIGH requires all
five domains passed and feasibility ≥ 80, then feasibility ≥ 60 gives
MEDIUM, else LOW. -/
theorem aggregator_status_first_match {K : Type} [LinearOrderedField K] [FloorRing K]
    (d : ℚ → ℚ → ℚ → ℚ → K) (ds : List WindLoadAudit.Feature)
    (b : Building) (ctx : Context) :
    (Aggregator.executeAllAudits d ds b ctx).status
      = Aggregator.statusOf
          ((Aggregator.executeAllAudits d ds b ctx).constraints.any
            fun c => decide (c.severity = Severity.blocking))
          ((Aggregator.executeAllAudits d ds b ctx).passedCount == 5)
          (Aggregator.executeAllAudits d ds b ctx).feasibility
    ∧ ((∃ c ∈ (Aggregator.executeAllAudits d ds b ctx).constraints,
          c.severity = Severity.blocking)
        → (Aggregator.executeAllAudits d ds b ctx).status = "REJECTED")
    ∧ (∀ (ap : Bool) (f : ℤ), Aggregator.statusOf true ap f = "REJECTED")
    ∧ (∀ (ap : Bool) (f : ℤ), Aggregator.statusOf false ap f
        = if ap && decide (80 ≤ f) then "HIGH - Ready for Submission"
          else if 60 ≤ f then "MEDIUM - Proceed with Caution"
          else "LOW - Significant Issues") := by
  have heq : (Aggregator.executeAllAudits d ds b ctx).status
      = Aggregator.statusOf
          ((Aggregator.executeAllAudits d ds b ctx).constraints.any
            fun c => decide (c.severity = Severity.blocking))
          ((Aggregator.executeAllAudits d ds b ctx).passedCount == 5)
          (Aggregator.executeAllAudits d ds b ctx).feasibility := rfl
  refine ⟨heq, ?_, fun ap f => rfl, fun ap f => ?_⟩
  · rintro ⟨c, hc, hsev⟩
    have hb : ((Aggregator.executeAllAudits d ds b ctx).constraints.any
        fun con => decide (con.severity = Severity.blocking)) = true :=
      List.any_eq_true.mpr ⟨c, hc, by simp [hsev]⟩
    rw [heq, hb]
    rfl
  · simp [Aggregator.statusOf]

/-- A tall (50 m) building in the sediment zone (lng 16.40 > 16.35)
built in concrete with a non-upgraded (masonry) structural system. -/
def bMasonryTall : Building :=
  ⟨48.21, 16.40, 48.21, 16.40, 50, 12, 200, 200, 70, 5, 0, false, false,
   Material.CONCRETE, "masonry"⟩

/-- The same tall sediment-zone site built in timber. -/
def bTimberTall : Building :=
  ⟨48.21, 16.40, 48.21, 16.40, 50, 12, 200, 200, 70, 5, 0, false, false,
   Material.TIMBER, "timber"⟩

/-- C5 counterexample: the claim says a tall sediment-zone building
without an upgraded structural system FAILS with a low score, and that
the lighter material receives a bonus instead.  The active
material-aware evaluator PASSES the masonry/concrete building with
score 75 (it never fails at all), while the legacy evaluator FAILS the
timber building with score 30 instead of granting it a bonus — so
neither variant satisfies the claim as stated. -/
theorem seismic_tall_sediment_cex :
    (SeismicAudit.exec bMasonryTall).passed = true ∧
    (SeismicAudit.exec bMasonryTall).score = 75 ∧
    (LegacySeismicAudit.exec bTimberTall).passed = false ∧
    (LegacySeismicAudit.exec bTimberTall).score = 30 := by
  have h1 : SeismicAudit.inSedimentZone bMasonryTall = true := by
    norm_num [SeismicAudit.inSedimentZone, bMasonryTall]
  have h2 : SeismicAudit.inSedimentZone bTimberTall = true := by
    norm_num [SeismicAudit.inSedimentZone, bTimberTall]
  have e1 : SeismicAudit.exec bMasonryTall =
      { passed := true, score := 75
        requirements :=
          ["Damping System: Tuned Mass Damper Recommended for optimal resilience"] } := by
    rw [SeismicAudit.exec, if_pos ⟨h1, by norm_num [bMasonryTall]⟩,
      if_neg (by simp [bMasonryTall])]
  have e2 : LegacySeismicAudit.exec bTimberTall =
      { passed := false, score := 30
        requirements :=
          ["Structural System Change: Reinforced Concrete Core or Steel Frame REQUIRED"] } := by
    rw [LegacySeismicAudit.exec, if_pos ⟨h2, by norm_num [bTimberTall]⟩,
      if_pos (by simp [bTimberTall, LegacySeismicAudit.highRiskStructures])]
  exact ⟨by rw [e1], by rw [e1], by rw [e2], by rw [e2]⟩

/-- C5 amended: for a tall (>40 m) sediment-zone building the material
or structure choice selects the branch, but the two variants behave
differently.  The active material-aware evaluator always passes:
score 90 with a CLT bonus for TIMBER, 75 with a damper recommendation
for CONCRETE.  The legacy evaluator fails (score 30) exactly when the
structural system is high-risk (masonry, bearing wall or timber) and
passes with score 80 otherwise. -/
theorem seismic_tall_sediment_branches (b : Building)
    (h1 : SeismicAudit.inSedimentZone b = true) (h2 : 40 < b.height) :
    (SeismicAudit.exec b).passed = true ∧
    (SeismicAudit.exec b).score = (if b.material = Material.TIMBER then 90 else 75) ∧
    ((LegacySeismicAudit.exec b).passed
      = !decide (b.structureType ∈ LegacySeismicAudit.highRiskStructures)) ∧
    (LegacySeismicAudit.exec b).score
      = (if b.structureType ∈ LegacySeismicAudit.highRiskStructures then 30 else 80) := by
  have e1 : (SeismicAudit.exec b).passed = true ∧
      (SeismicAudit.exec b).score = (if b.material = Material.TIMBER then 90 else 75) := by
    rw [SeismicAudit.exec, if_pos ⟨h1, h2⟩]
    by_cases hm : b.material = Material.TIMBER <;> simp [hm]
  have e2 : ((LegacySeismicAudit.exec b).passed
        = !decide (b.structureType ∈ LegacySeismicAudit.highRiskStructures)) ∧
      (LegacySeismicAudit.exec b).score
        = (if b.structureType ∈ LegacySeismicAudit.highRiskStructures then 30 else 80) := by
    rw [LegacySeismicAudit.exec, if_pos ⟨h1, h2⟩]
    by_cases hs : b.structureType ∈ LegacySeismicAudit.highRiskStructures <;> simp [hs]
  exact ⟨e1.1, e1.2, e2.1, e2.2⟩

/-- C5 witness: the amended branch theorem instantiated at the
concrete masonry/concrete tall sediment-zone building. -/
theorem seismic_tall_sediment_branches_witness :
    (SeismicAudit.exec bMasonryTall).passed = true ∧
    (SeismicAudit.exec bMasonryTall).score = 75 ∧
    (LegacySeismicAudit.exec bMasonryTall).passed = false ∧
    (LegacySeismicAudit.exec bMasonryTall).score = 30 := by
  have T := seismic_tall_sediment_branches bMasonryTall
    (by norm_num [SeismicAudit.inSedimentZone, bMasonryTall])
    (by norm_num [bMasonryTall])
  refine ⟨T.1, ?_, ?_, ?_⟩
  · rw [T.2.1, if_neg (by simp [bMasonryTall])]
  · rw [T.2.2.1]
    simp [bMasonryTall, LegacySeismicAudit.highRiskStructures]
  · rw [T.2.2.2, if_pos (by simp [bMasonryTall, LegacySeismicAudit.highRiskStructures])]

/-- C8 counterexample: an evaluator invoked with a missing building
returns null (`none`), not a failed AuditResult with score 0 — here
for both structural evaluators, whose source begins with
`if (!building) return null`. -/
theorem seismic_missing_building_cex :
    SeismicAudit.executeOpt none = none ∧
    WindLoadAudit.executeOpt (fun _ _ _ _ => (0 : ℚ)) [] none = none :=
  ⟨rfl, rfl⟩

/-- C8 amended: evaluators are total functions of their inputs (the
embedding can never throw), but a missing building is answered with
null (`none`) rather than a failed score-0 AuditResult: `executeOpt`
maps `some b` to the ordinary result and `none` to `none`. -/
theorem evaluator_null_guard {K : Type} [LinearOrderedField K]
    (d : ℚ → ℚ → ℚ → ℚ → K) (ds : List WindLoadAudit.Feature) (b : Building) :
    SeismicAudit.executeOpt (some b) = some (SeismicAudit.exec b) ∧
    SeismicAudit.executeOpt none = none ∧
    WindLoadAudit.executeOpt d ds (some b) = some (WindLoadAudit.exec d b ds) ∧
    WindLoadAudit.executeOpt d ds none = none :=
  ⟨rfl, rfl, rfl, rfl⟩

/-- C6: whenever the building height exceeds the regulatory Bauklasse
limit but stays within the contextual limit, Zoning fails the audit
with an HEIGHT_VARIANCE_OPPORTUNITY constraint of severity important
(never critical), and the height check costs exactly 15 points (not
40): the score is 100 − 15 minus only the independent floor and
Schutzzone deductions. -/
theorem zoning_variance_opportunity (b : Building) (ctx : Context)
    (h1 : (ZoningAudit.regulatorySpec b ctx).maxHeight < b.height)
    (h2 : b.height ≤ (ZoningAudit.contextualLimit b ctx : ℚ)) :
    (ZoningAudit.execute b ctx).passed = false
    ∧ (∃ c ∈ (ZoningAudit.execute b ctx).constraints,
        c.ctype = CType.HEIGHT_VARIANCE_OPPORTUNITY ∧ c.severity = Severity.important)
    ∧ (∀ c ∈ (ZoningAudit.execute b ctx).constraints, c.severity ≠ Severity.critical)
    ∧ (ZoningAudit.execute b ctx).score
        = max 0 (100 - 15 - ZoningAudit.floorPenalty b ctx - ZoningAudit.schutzPenalty b) := by
  have hp : ZoningAudit.heightPenalty b ctx = 15 := by
    rw [ZoningAudit.heightPenalty, if_pos h1, if_pos h2]
  have hc : ZoningAudit.heightConstraints b ctx
      = [⟨.HEIGHT_VARIANCE_OPPORTUNITY, .important,
          "Building height exceeds district default but aligns with neighborhood fabric. High variance potential."⟩] := by
    rw [ZoningAudit.heightConstraints, if_pos h1, if_pos h2]
  refine ⟨?_, ?_, ?_, ?_⟩
  · simp [ZoningAudit.execute, h1]
  · refine ⟨⟨.HEIGHT_VARIANCE_OPPORTUNITY, .important,
      "Building height exceeds district default but aligns with neighborhood fabric. High variance potential."⟩,
      ?_, rfl, rfl⟩
    show _ ∈ (ZoningAudit.execute b ctx).constraints
    simp only [ZoningAudit.execute, hc]
    exact List.mem_append_left _ (List.mem_append_left _ (List.mem_singleton_self _))
  · intro c hcm
    simp only [ZoningAudit.execute, hc] at hcm
    rcases List.mem_append.mp hcm with hcm' | hcm'
    · rcases List.mem_append.mp hcm' with hcm'' | hcm''
      · rw [List.mem_singleton.mp hcm'']
        simp
      · rw [ZoningAudit.floorConstraints] at hcm''
        split at hcm''
        · rw [List.mem_singleton.mp hcm'']
          simp
        · simp at hcm''
    · rw [ZoningAudit.schutzConstraints] at hcm'
      split at hcm'
      · rw [List.mem_singleton.mp hcm']
        simp
      · simp at hcm'
  · simp only [ZoningAudit.execute, hp]

/-- A test site outside every Schutzzone at district-1 regulatory
class IV (21 m) with a taller neighborhood fabric (average 25 m). -/
def bVariance : Building :=
  ⟨48.19, 16.30, 48.19, 16.30, 22, 5, 200, 200, 70, 5, 0, false, false,
   Material.CONCRETE, "reinforced_concrete"⟩

/-- Context for the variance witness: district 1, neighborhood
averaging 25 m. -/
def ctxVariance : Context := ⟨some 1, some ⟨25, 0, 3⟩⟩

/-- C6 witness: at the concrete variance site (height 22 m, regulatory
21 m, contextual 26 m) the zoning audit fails with the important
variance constraint and score 85. -/
theorem zoning_variance_opportunity_witness :
    (ZoningAudit.execute bVariance ctxVariance).passed = false
    ∧ (∃ c ∈ (ZoningAudit.execute bVariance ctxVariance).constraints,
        c.ctype = CType.HEIGHT_VARIANCE_OPPORTUNITY ∧ c.severity = Severity.important)
    ∧ (ZoningAudit.execute bVariance ctxVariance).score = 85 := by
  have hreg : (ZoningAudit.regulatorySpec bVariance ctxVariance).maxHeight < bVariance.height := by
    norm_num [ZoningAudit.regulatorySpec, ZoningAudit.effDistrict, ZoningAudit.districtDefaultBK,
      ZoningAudit.bauklasse, bVariance, ctxVariance]
  have hctx : bVariance.height ≤ (ZoningAudit.contextualLimit bVariance ctxVariance : ℚ) := by
    norm_num [ZoningAudit.contextualLimit, ZoningAudit.regulatorySpec, ZoningAudit.suggestedSpec,
      ZoningAudit.effDistrict, ZoningAudit.effNeighborhood, ZoningAudit.districtDefaultBK,
      ZoningAudit.getSuggestedBauklasse, ZoningAudit.bauklasse, jsRound, bVariance, ctxVariance]
  have T := zoning_variance_opportunity bVariance ctxVariance hreg hctx
  refine ⟨T.1, T.2.1, ?_⟩
  rw [T.2.2.2]
  have hf : ZoningAudit.floorPenalty bVariance ctxVariance = 0 := by
    rw [ZoningAudit.floorPenalty, if_neg]
    norm_num [ZoningAudit.regulatorySpec, ZoningAudit.effDistrict,
      ZoningAudit.districtDefaultBK, ZoningAudit.bauklasse, bVariance, ctxVariance]
  have hs : ZoningAudit.schutzPenalty bVariance = 0 := by
    rw [ZoningAudit.schutzPenalty, if_neg]
    norm_num [ZoningAudit.schutzzoneHit, ZoningAudit.schutzzonen, Spatial.isPointInPolygon,
      Spatial.edgeCrosses, bVariance, List.find?]
  rw [hf, hs]
  norm_num

/-- C7: the subsurface basement-depth conflict is independent of the
horizontal proximity band: for any distance function and building
whose nearest-station scan yields a rounded distance of at least
100 m (outside every band, e.g. 200 m) and whose positive basement
depth exceeds tunnelDepth − 5, the evaluator still passes the
proximity check, adds the critical DEPTH_CONFLICT constraint, and
applies exactly the −20 penalty (score 80). -/
theorem subsurface_depth_conflict_independent {K : Type} [LinearOrderedField K] [FloorRing K]
    (d : ℚ → ℚ → ℚ → ℚ → K) (b : Building) (nd : ℤ) (td : ℚ)
    (h : SubsurfaceAudit.nearestScan d b = some (nd, td))
    (h1 : 100 ≤ nd)
    (h2 : td - 5 < b.basementDepth)
    (h3 : 0 < b.basementDepth) :
    (∃ c ∈ (SubsurfaceAudit.execute d b).constraints,
      c.ctype = CType.DEPTH_CONFLICT ∧ c.severity = Severity.critical)
    ∧ (SubsurfaceAudit.execute d b).score = 80
    ∧ (SubsurfaceAudit.execute d b).passed = true := by
  have hband : SubsurfaceAudit.bandPenalty nd = 0 := by
    rw [SubsurfaceAudit.bandPenalty, if_neg (by omega), if_neg (by omega), if_neg (by omega)]
  have hbandc : SubsurfaceAudit.bandConstraints nd = [] := by
    rw [SubsurfaceAudit.bandConstraints, if_neg (by omega), if_neg (by omega), if_neg (by omega)]
  have hdep : SubsurfaceAudit.depthPenalty td b.basementDepth = 20 := by
    rw [SubsurfaceAudit.depthPenalty, if_pos ⟨h3, h2⟩]
  have hdepc : SubsurfaceAudit.depthConstraints td b.basementDepth
      = [⟨.DEPTH_CONFLICT, .critical, "Basement depth may conflict with tunnel"⟩] := by
    rw [SubsurfaceAudit.depthConstraints, if_pos ⟨h3, h2⟩]
  have hexec : SubsurfaceAudit.execute d b
      = { passed := !decide (nd < 30)
          score := max 0 (100 - SubsurfaceAudit.bandPenalty nd
            - SubsurfaceAudit.depthPenalty td b.basementDepth)
          constraints := SubsurfaceAudit.bandConstraints nd
            ++ SubsurfaceAudit.depthConstraints td b.basementDepth } := by
    rw [SubsurfaceAudit.execute, h]
  refine ⟨?_, ?_, ?_⟩
  · refine ⟨⟨.DEPTH_CONFLICT, .critical, "Basement depth may conflict with tunnel"⟩,
      ?_, rfl, rfl⟩
    show _ ∈ (SubsurfaceAudit.execute d b).constraints
    rw [hexec]
    simp only [hbandc, hdepc, List.nil_append]
    exact List.mem_singleton_self _
  · rw [hexec]
    simp only [hband, hdep]
    norm_num
  · rw [hexec]
    simp only [decide_eq_true_eq]
    simp [show ¬(nd < 30) by omega]

/-- A building 200 m (under the constant-200 distance function) from
every station, with a 16 m basement against the nearest line's 20 m
tunnel depth. -/
def bDeepBasement : Building :=
  ⟨48.19, 16.30, 48.19, 16.30, 22, 5, 200, 200, 70, 16, 0, false, false,
   Material.CONCRETE, "reinforced_concrete"⟩

/-- The constant distance function placing everything 200 m away. -/
def dTwoHundredQ : ℚ → ℚ → ℚ → ℚ → ℚ := fun _ _ _ _ => 200

/-- C7 witness: at 200 m from every station (outside all bands) with
basement depth 16 > 20 − 5, the subsurface audit still returns score
80 and passes. -/
theorem subsurface_depth_conflict_independent_witness :
    (∃ c ∈ (SubsurfaceAudit.execute dTwoHundredQ bDeepBasement).constraints,
      c.ctype = CType.DEPTH_CONFLICT ∧ c.severity = Severity.critical)
    ∧ (SubsurfaceAudit.execute dTwoHundredQ bDeepBasement).score = 80
    ∧ (SubsurfaceAudit.execute dTwoHundredQ bDeepBasement).passed = true := by
  have hscan : SubsurfaceAudit.nearestScan dTwoHundredQ bDeepBasement = some (200, 20) := by
    norm_num [SubsurfaceAudit.nearestScan, SubsurfaceAudit.stations, jsRound, dTwoHundredQ,
      List.foldl]
  exact subsurface_depth_conflict_independent dTwoHundredQ bDeepBasement 200 20 hscan
    (by norm_num) (by norm_num [bDeepBasement]) (by norm_num [bDeepBasement])

/-- A 44 m building (UNESCO limit 43 m plus 1) located exactly at
St. Stephens Cathedral, inside the UNESCO buffer polygon. -/
def bAtStephansdom : Building :=
  ⟨48.2084, 16.3731, 48.2084, 16.3731, 44, 5, 200, 200, 70, 5, 0, false, false,
   Material.CONCRETE, "reinforced_concrete"⟩

/-- Context with district 1, as the hook resolves it in the UNESCO
core. -/
def ctxD1 : Context := ⟨some 1, none⟩

/-- C4 counterexample: at St. Stephens Cathedral (inside the UNESCO
buffer) a building of height 43 + 1 gets the blocking −50 height
violation AND a −10 landmark-proximity penalty (its distance to the
cathedral landmark is 0 < 200 m under the source haversine), so the
score is at most 40, not exactly 50 as the claim asserts for every
in-zone building of that height. -/
theorem heritage_unesco_score_cex :
    (HeritageAudit.execute Spatial.getDistanceQ bAtStephansdom ctxD1).score ≠ 50 := by
  have hz : HeritageAudit.inUnescoZone bAtStephansdom = true := by
    norm_num [HeritageAudit.inUnescoZone, HeritageAudit.unescoCore, Spatial.isPointInPolygon,
      Spatial.edgeCrosses, bAtStephansdom, List.foldl]
  have hp : HeritageAudit.heightPenalty bAtStephansdom = 50 := by
    rw [HeritageAudit.heightPenalty, if_pos hz,
      if_pos (by norm_num [HeritageAudit.unescoHeightLimit, bAtStephansdom])]
  have hmem : (⟨48.2084, 16.3731, 200⟩ : HeritageAudit.Landmark)
      ∈ HeritageAudit.landmarksNear Spatial.getDistanceQ bAtStephansdom := by
    apply List.mem_filter.mpr
    refine ⟨by simp [HeritageAudit.landmarks], ?_⟩
    rw [decide_eq_true_eq]
    show Spatial.getDistanceQ bAtStephansdom.latitude bAtStephansdom.longitude
        48.2084 16.3731 < ((200 : ℚ) : ℝ)
    have : Spatial.getDistanceQ bAtStephansdom.latitude bAtStephansdom.longitude
        48.2084 16.3731 = 0 := Spatial.getDistanceQ_self 48.2084 16.3731
    rw [this]
    norm_num
  have hlen : 1 ≤ ((HeritageAudit.landmarksNear Spatial.getDistanceQ bAtStephansdom).length : ℚ) := by
    exact_mod_cast List.length_pos.mpr (List.ne_nil_of_mem hmem)
  intro habs
  have hs : (HeritageAudit.execute Spatial.getDistanceQ bAtStephansdom ctxD1).score
      = max 0 (100 - 50
        - 10 * ((HeritageAudit.landmarksNear Spatial.getDistanceQ bAtStephansdom).length : ℚ)) := by
    simp only [HeritageAudit.execute, hp]
  have hle : (HeritageAudit.execute Spatial.getDistanceQ bAtStephansdom ctxD1).score ≤ 40 := by
    rw [hs]
    exact max_le (by norm_num) (by linarith)
  rw [habs] at hle
  norm_num at hle

/-- C4 amended: for every in-zone building whose height exceeds the
43 m UNESCO limit (e.g. 43 + 1), Heritage fails the audit with a
blocking UNESCO_HEIGHT_VIOLATION constraint and deducts exactly 50
from the baseline 100 — the final score is exactly 50 provided no
landmark-proximity penalty also applies (each in-radius landmark
deducts a further 10, as the counterexample shows). -/
theorem heritage_unesco_height_blocking {K : Type} [LinearOrderedField K]
    (d : ℚ → ℚ → ℚ → ℚ → K) (b : Building) (ctx : Context)
    (h_in : HeritageAudit.inUnescoZone b = true)
    (h_h : HeritageAudit.unescoHeightLimit < b.height)
    (h_lm : HeritageAudit.landmarksNear d b = []) :
    (HeritageAudit.execute d b ctx).passed = false
    ∧ (∃ c ∈ (HeritageAudit.execute d b ctx).constraints,
        c.ctype = CType.UNESCO_HEIGHT_VIOLATION ∧ c.severity = Severity.blocking)
    ∧ (HeritageAudit.execute d b ctx).score = 50 := by
  have hp : HeritageAudit.heightPenalty b = 50 := by
    rw [HeritageAudit.heightPenalty, if_pos h_in, if_pos h_h]
  refine ⟨?_, ?_, ?_⟩
  · simp [HeritageAudit.execute, h_in, h_h]
  · refine ⟨⟨.UNESCO_HEIGHT_VIOLATION, .blocking,
      "Height violates UNESCO 43m limit - AUTOMATIC REJECTION"⟩, ?_, rfl, rfl⟩
    show _ ∈ (HeritageAudit.execute d b ctx).constraints
    simp only [HeritageAudit.execute, HeritageAudit.unescoConstraints, if_pos h_in, if_pos h_h]
    simp
  · simp only [HeritageAudit.execute, hp, h_lm]
    norm_num

/-- An in-zone 44 m building away from all landmarks (the constant
10 km distance function keeps every landmark out of radius). -/
def bUnescoTall : Building :=
  ⟨48.21, 16.37, 48.21, 16.37, 44, 5, 200, 200, 70, 5, 0, false, false,
   Material.CONCRETE, "reinforced_concrete"⟩

/-- Constant 10 km distance function for witnesses. -/
def dTenKmQ : ℚ → ℚ → ℚ → ℚ → ℚ := fun _ _ _ _ => 10000

/-- C4 witness: the amended theorem at the concrete in-zone 44 m
building with no landmark in radius: fails, blocking constraint,
score exactly 50. -/
theorem heritage_unesco_height_blocking_witness :
    (HeritageAudit.execute dTenKmQ bUnescoTall ctxD1).passed = false
    ∧ (∃ c ∈ (HeritageAudit.execute dTenKmQ bUnescoTall ctxD1).constraints,
        c.ctype = CType.UNESCO_HEIGHT_VIOLATION ∧ c.severity = Severity.blocking)
    ∧ (HeritageAudit.execute dTenKmQ bUnescoTall ctxD1).score = 50 :=
  heritage_unesco_height_blocking dTenKmQ bUnescoTall ctxD1
    (by norm_num [HeritageAudit.inUnescoZone, HeritageAudit.unescoCore,
      Spatial.isPointInPolygon, Spatial.edgeCrosses, bUnescoTall, List.foldl])
    (by norm_num [HeritageAudit.unescoHeightLimit, bUnescoTall])
    (by norm_num [HeritageAudit.landmarksNear, HeritageAudit.landmarks, dTenKmQ, List.filter])

namespace Aggregator

/-- When every constraint of the prefix `A` is neither blocking nor
critical and `c` is blocking or critical, the key risk of
`A ++ c :: B` is the message of `c` (the first qualifying constraint
in stable union order). -/
theorem keyRiskOf_first (A B : List Constraint) (c : Constraint)
    (hA : ∀ x ∈ A, x.severity ≠ Severity.blocking ∧ x.severity ≠ Severity.critical)
    (hc : c.severity = Severity.blocking ∨ c.severity = Severity.critical) :
    keyRiskOf (A ++ c :: B) = c.message := by
  unfold keyRiskOf
  rw [List.filter_append,
    List.filter_eq_nil_iff.mpr (fun x hx => by
      obtain ⟨h1, h2⟩ := hA x hx
      simp [h1, h2]),
    List.nil_append,
    List.filter_cons_of_pos (by rcases hc with h | h <;> simp [h])]

end Aggregator

/-- C10: every building inside the UNESCO buffer polygon receives the
critical UNESCO_BUFFER advisory constraint regardless of height —
even a height-compliant building that passes the heritage audit — and
when the earlier zoning constraints contain nothing blocking or
critical, that advisory becomes the aggregator's key risk. -/
theorem heritage_unesco_always_flags_critical {K : Type} [LinearOrderedField K] [FloorRing K]
    (d : ℚ → ℚ → ℚ → ℚ → K) (ds : List WindLoadAudit.Feature)
    (b : Building) (ctx : Context)
    (h_in : HeritageAudit.inUnescoZone b = true)
    (h_zc : ∀ c ∈ (ZoningAudit.execute b ctx).constraints,
        c.severity ≠ Severity.blocking ∧ c.severity ≠ Severity.critical) :
    (∃ c ∈ (HeritageAudit.execute d b ctx).constraints,
        c.ctype = CType.UNESCO_BUFFER ∧ c.severity = Severity.critical)
    ∧ (b.height ≤ HeritageAudit.unescoHeightLimit
        → (HeritageAudit.execute d b ctx).passed = true)
    ∧ (Aggregator.executeAllAudits d ds b ctx).keyRisk
        = "Located within UNESCO World Heritage buffer zone" := by
  have hT : (HeritageAudit.execute d b ctx).constraints
      = (⟨.UNESCO_BUFFER, .critical, "Located within UNESCO World Heritage buffer zone"⟩ : Constraint)
        :: ((if HeritageAudit.unescoHeightLimit < b.height then
              [⟨.UNESCO_HEIGHT_VIOLATION, .blocking,
                "Height violates UNESCO 43m limit - AUTOMATIC REJECTION"⟩]
            else if (35 : ℚ) < b.height then
              [⟨.HEIGHT_REVIEW, .warning, "Height requires enhanced heritage review (>35m)"⟩]
            else [])
          ++ HeritageAudit.landmarkConstraints d b
          ++ HeritageAudit.districtConstraints ctx) := by
    simp only [HeritageAudit.execute, HeritageAudit.unescoConstraints, if_pos h_in,
      List.cons_append, List.append_assoc]
  refine ⟨?_, ?_, ?_⟩
  · refine ⟨⟨.UNESCO_BUFFER, .critical, "Located within UNESCO World Heritage buffer zone"⟩,
      ?_, rfl, rfl⟩
    rw [hT]
    exact List.mem_cons_self _ _
  · intro hh
    simp [HeritageAudit.execute, h_in, not_lt.mpr hh]
  · have hkr : (Aggregator.executeAllAudits d ds b ctx).keyRisk
        = Aggregator.keyRiskOf (Aggregator.executeAllAudits d ds b ctx).constraints := rfl
    have hcons : (Aggregator.executeAllAudits d ds b ctx).constraints
        = (ZoningAudit.execute b ctx).constraints
          ++ (HeritageAudit.execute d b ctx).constraints
          ++ (SubsurfaceAudit.execute d b).constraints
          ++ (Climate2036Audit.execute b ctx).constraints
          ++ ((if (SeismicAudit.exec b).passed then ([] : List Constraint)
              else [⟨CType.SEISMIC_FAIL, Severity.critical,
                (SeismicAudit.exec b).requirements.headD ""⟩])
            ++ (if (WindLoadAudit.exec d b ds).passed then ([] : List Constraint)
              else [⟨CType.WIND_FAIL, Severity.critical,
                (WindLoadAudit.exec d b ds).requirements.headD ""⟩])) := rfl
    rw [hkr, hcons, hT]
    simp only [List.append_assoc, List.cons_append]
    exact Aggregator.keyRiskOf_first _ _ _ h_zc (Or.inr rfl)

/-- A height-compliant (20 m) building inside the UNESCO buffer. -/
def bUnescoCompliant : Building :=
  ⟨48.21, 16.37, 48.21, 16.37, 20, 5, 200, 200, 70, 5, 0, false, false,
   Material.CONCRETE, "reinforced_concrete"⟩

/-- C10 witness: the compliant in-zone building still carries the
critical UNESCO advisory, passes the heritage audit, and the advisory
is the aggregator's key risk. -/
theorem heritage_unesco_always_flags_critical_witness :
    (∃ c ∈ (HeritageAudit.execute dTenKmQ bUnescoCompliant ctxD1).constraints,
        c.ctype = CType.UNESCO_BUFFER ∧ c.severity = Severity.critical)
    ∧ (HeritageAudit.execute dTenKmQ bUnescoCompliant ctxD1).passed = true
    ∧ (Aggregator.executeAllAudits dTenKmQ [] bUnescoCompliant ctxD1).keyRisk
        = "Located within UNESCO World Heritage buffer zone" := by
  have hzc_eq : (ZoningAudit.execute bUnescoCompliant ctxD1).constraints
      = [⟨.SCHUTZZONE, .important, "Located in protection zone - special approvals required"⟩] := by
    norm_num [ZoningAudit.execute, ZoningAudit.heightConstraints, ZoningAudit.floorConstraints,
      ZoningAudit.schutzConstraints, ZoningAudit.schutzzoneHit, ZoningAudit.schutzzonen,
      ZoningAudit.regulatorySpec, ZoningAudit.contextualLimit, ZoningAudit.suggestedSpec,
      ZoningAudit.effDistrict, ZoningAudit.effNeighborhood, ZoningAudit.districtDefaultBK,
      ZoningAudit.getSuggestedBauklasse, ZoningAudit.bauklasse, jsRound,
      Spatial.isPointInPolygon, Spatial.edgeCrosses, bUnescoCompliant, ctxD1, List.find?]
  have T := heritage_unesco_always_flags_critical dTenKmQ [] bUnescoCompliant ctxD1
    (by norm_num [HeritageAudit.inUnescoZone, HeritageAudit.unescoCore,
      Spatial.isPointInPolygon, Spatial.edgeCrosses, bUnescoCompliant, List.foldl])
    (by
      intro c hc
      rw [hzc_eq] at hc
      rw [List.mem_singleton.mp hc]
      exact ⟨by simp, by simp⟩)
  exact ⟨T.1, T.2.1 (by norm_num [HeritageAudit.unescoHeightLimit, bUnescoCompliant]), T.2.2⟩

/-- A building with 90 % sealed surface: the climate audit produces a
blocking SURFACE_SEAL_EXCEEDED constraint. -/
def bSealed : Building :=
  ⟨48.19, 16.30, 48.19, 16.30, 22, 5, 200, 200, 90, 5, 0, false, false,
   Material.CONCRETE, "reinforced_concrete"⟩

/-- C1 witness: a run whose constraint union contains a blocking
constraint (the 90 % surface seal) has overall status REJECTED. -/
theorem aggregator_status_first_match_witness :
    (Aggregator.executeAllAudits dTenKmQ [] bSealed ctxVariance).status = "REJECTED" := by
  have hseal : Climate2036Audit.sealConstraints bSealed
      = [⟨.SURFACE_SEAL_EXCEEDED, .blocking,
          "Surface seal exceeds 80% limit - AUTOMATIC REJECTION"⟩] := by
    rw [Climate2036Audit.sealConstraints, if_pos (by norm_num [bSealed])]
  have hmem : (⟨.SURFACE_SEAL_EXCEEDED, .blocking,
      "Surface seal exceeds 80% limit - AUTOMATIC REJECTION"⟩ : Constraint)
      ∈ (Aggregator.executeAllAudits dTenKmQ [] bSealed ctxVariance).constraints := by
    have hcons : (Aggregator.executeAllAudits dTenKmQ [] bSealed ctxVariance).constraints
        = (ZoningAudit.execute bSealed ctxVariance).constraints
          ++ (HeritageAudit.execute dTenKmQ bSealed ctxVariance).constraints
          ++ (SubsurfaceAudit.execute dTenKmQ bSealed).constraints
          ++ (Climate2036Audit.execute bSealed ctxVariance).constraints
          ++ ((if (SeismicAudit.exec bSealed).passed then ([] : List Constraint)
              else [⟨CType.SEISMIC_FAIL, Severity.critical,
                (SeismicAudit.exec bSealed).requirements.headD ""⟩])
            ++ (if (WindLoadAudit.exec dTenKmQ bSealed []).passed then ([] : List Constraint)
              else [⟨CType.WIND_FAIL, Severity.critical,
                (WindLoadAudit.exec dTenKmQ bSealed []).requirements.headD ""⟩])) := rfl
    rw [hcons]
    apply List.mem_append_left
    apply List.mem_append_right
    show _ ∈ (Climate2036Audit.execute bSealed ctxVariance).constraints
    simp only [Climate2036Audit.execute, hseal]
    apply List.mem_append_left
    apply List.mem_append_left
    exact List.mem_singleton_self _
  exact (aggregator_status_first_match dTenKmQ [] bSealed ctxVariance).2.1
    ⟨_, hmem, rfl⟩
